import Mathlib

/-!
Verification of the specification of the `error-debugging-mcp-server` fixture
repository.  The repository consists of a single static text file,
`test-python-errors.py`, holding ten labeled, deliberately malformed Python
fragments.  We embed the file byte-for-byte as a list of lines (the file is
newline-separated with no trailing newline and contains one literal tab, on
the line of fragment 9) and settle the specification's claims about that text.
-/

set_option maxRecDepth 8192

namespace ErrFixture

/-- The 45 physical lines of `src/test-python-errors.py`, transcribed verbatim.
The file uses `\x0a` as line separator, has no trailing newline, and its only
tab character starts the `print("tabs")` line of fragment 9.  The two brace
characters of fragment 5 are written with `\x7b` / `\x7d` escapes. -/
def fileLines : List String := [
  "# Python test file with intentional errors for testing error detection",
  "",
  "# 1. Syntax Error - Invalid indentation",
  "def broken_function():",
  "print(\"This should be indented\")",
  "    return True",
  "",
  "# 2. Syntax Error - Missing colon",
  "def another_broken_function()",
  "    return False",
  "",
  "# 3. Name Error - Undefined variable",
  "def use_undefined_variable():",
  "    print(undefined_variable)",
  "    return result",
  "",
  "# 4. Type Error - Unsupported operation",
  "def type_error_example():",
  "    return \"string\" + 5",
  "",
  "# 5. Syntax Error - Invalid dictionary",
  "broken_dict = \x7b",
  "    \"key1\": \"value1\",",
  "    \"key2\": \"value2\"",
  "    \"key3\": \"value3\"  # Missing comma",
  "\x7d",
  "",
  "# 6. Import Error - Non-existent module",
  "import non_existent_module",
  "",
  "# 7. Syntax Error - Invalid function call",
  "def invalid_call():",
  "    return some_function(param1, param2,)  # Trailing comma in wrong place",
  "",
  "# 8. Syntax Error - Unclosed string",
  "broken_string = \"This string is not closed",
  "",
  "# 9. Indentation Error - Mixed tabs and spaces",
  "def mixed_indentation():",
  "    if True:",
  "        print(\"spaces\")",
  "\tprint(\"tabs\")  # This line uses tabs",
  "",
  "# 10. Syntax Error - Invalid assignment",
  "5 = variable_name"]

/-- The same lines as raw character sequences; all reasoning below is over
`List Char`, which the kernel evaluates directly. -/
def fileCharLines : List (List Char) := fileLines.map String.data

/-- Join a list of lines with newline characters (no trailing newline),
reconstructing the flat text of a file from its lines. -/
def joinNl : List (List Char) → List Char
  | [] => []
  | [l] => l
  | l :: l2 :: ls => l ++ '\n' :: joinNl (l2 :: ls)

/-- Split a character sequence at newline characters.  Total and inverse to
`joinNl`; a text with `k` newlines yields `k + 1` lines. -/
def splitNl : List Char → List (List Char)
  | [] => [[]]
  | c :: cs =>
    if c = '\n' then [] :: splitNl cs
    else
      match splitNl cs with
      | [] => [[c]]
      | l :: ls => (c :: l) :: ls

/-- The full byte content of `test-python-errors.py` as a character sequence:
its 45 lines joined by the 44 newline bytes.  Every byte of the file is a
one-byte UTF-8 character, so characters and bytes coincide. -/
def fileChars : List Char := joinNl fileCharLines

/-- Embedding sanity check: the file is exactly 1104 bytes, matching
`wc -c src/test-python-errors.py`. -/
theorem fileChars_byteSize : fileChars.length = 1104 := by decide

/-- `true` iff `p` is a prefix of `l`. -/
def seqStarts : List Char → List Char → Bool
  | [], _ => true
  | _ :: _, [] => false
  | p :: ps, c :: cs => p == c && seqStarts ps cs

/-- `true` iff `pat` occurs as a contiguous subsequence of `l`. -/
def seqIn (pat : List Char) : List Char → Bool
  | [] => seqStarts pat []
  | c :: cs => seqStarts pat (c :: cs) || seqIn pat cs

/-- The label token of fragment `n`: the characters `# n.` that open its
comment header line. -/
def headerTag (n : Nat) : List Char := '#' :: ' ' :: (Nat.repr n).data ++ ['.']

/-- A line is a fragment header iff it starts with `# n.` for some
`n ∈ 1..10`. -/
def isFragHeader (l : List Char) : Bool :=
  (List.range 10).any fun k => seqStarts (headerTag (k + 1)) l

/-- Index (0-based) of fragment `n`'s header line in the file. -/
def hdrPos (n : Nat) : Nat := fileCharLines.findIdx (seqStarts (headerTag n))

/-- The line at index `i` of the file (empty if out of range). -/
def lineAt (i : Nat) : List Char := fileCharLines.getD i []

/-- One past the last line index of fragment `n`: the next header's position,
or the end of the file for fragment 10. -/
def fragStop (n : Nat) : Nat :=
  if n = 10 then fileCharLines.length else hdrPos (n + 1)

/-- The lines of fragment `n`: its header line and everything up to (not
including) the next fragment's header. -/
def fragSlice (n : Nat) : List (List Char) :=
  (fileCharLines.drop (hdrPos n)).take (fragStop n - hdrPos n)

/-- Characters Python treats as parts of an identifier (ASCII subset, which is
all the file uses). -/
def isIdentChar (c : Char) : Bool := c.isAlpha || c.isDigit || c == '_'

/-- Helper for `tokensOf`: accumulates the current identifier run (reversed). -/
def tokensGo (acc : List Char) : List Char → List (List Char)
  | [] => if acc.isEmpty then [] else [acc.reverse]
  | c :: cs =>
    if isIdentChar c then tokensGo (c :: acc) cs
    else if acc.isEmpty then tokensGo [] cs
    else acc.reverse :: tokensGo [] cs

/-- The maximal identifier-character runs of a line, in order: the word and
name tokens the line contains. -/
def tokensOf (l : List Char) : List (List Char) := tokensGo [] l

/-- The leading whitespace (spaces and tabs) of a line. -/
def leadWs (l : List Char) : List Char :=
  l.takeWhile fun c => c == ' ' || c == '\t'

/-- The identifier that fragment `n`'s snippet introduces (the name it defines
or, for fragment 10, the invalid assignment's right-hand name). -/
def definedName : Nat → List Char
  | 1 => "broken_function".data
  | 2 => "another_broken_function".data
  | 3 => "use_undefined_variable".data
  | 4 => "type_error_example".data
  | 5 => "broken_dict".data
  | 6 => "non_existent_module".data
  | 7 => "invalid_call".data
  | 8 => "broken_string".data
  | 9 => "mixed_indentation".data
  | 10 => "variable_name".data
  | _ => []

/-- The line of fragment 8's snippet, the one assigning `broken_string`. -/
def brokenStringLine : List Char := lineAt (hdrPos 8 + 1)

/-- Modelled from the spec: the repository contains no I/O code, so the read
operation of spec sections 6 and 8 ("static text to store and serve verbatim",
"the file's byte content is preserved unchanged on read") is modelled as a
store holding the file's bytes. -/
structure FileStore where
  content : List Char

/-- Modelled from the spec: reading the stored file returns its byte content
and the (unchanged) store. -/
def read (s : FileStore) : List Char × FileStore := (s.content, s)

/-- The store holding `test-python-errors.py`. -/
def storedFile : FileStore := ⟨fileChars⟩

/-- Prepending a character to the first line commutes with `joinNl`. -/
theorem joinNl_cons (c : Char) (l : List Char) (ls : List (List Char)) :
    joinNl ((c :: l) :: ls) = c :: joinNl (l :: ls) := by
  cases ls with
  | nil => rfl
  | cons l2 ls => rfl

/-- `splitNl` always yields at least one line. -/
theorem splitNl_ne_nil (cs : List Char) : splitNl cs ≠ [] := by
  cases cs with
  | nil => simp [splitNl]
  | cons c cs =>
    by_cases h : c = '\n'
    · simp [splitNl, h]
    · simp only [splitNl, if_neg h]
      cases hs : splitNl cs with
      | nil => simp
      | cons l ls => simp

/-- Splitting any character sequence at newlines and rejoining with newlines
is the identity. -/
theorem joinNl_splitNl : ∀ cs : List Char, joinNl (splitNl cs) = cs := by
  intro cs
  induction cs with
  | nil => rfl
  | cons c cs ih =>
    rcases hs : splitNl cs with _ | ⟨l, ls⟩
    · exact absurd hs (splitNl_ne_nil cs)
    · by_cases h : c = '\n'
      · subst h
        simp only [splitNl, if_pos rfl, hs]
        show '\n' :: joinNl (l :: ls) = '\n' :: cs
        rw [← hs, ih]
      · simp only [splitNl, if_neg h, hs, joinNl_cons]
        rw [← hs, ih]

/-- C1: the file consists of exactly ten labeled fragments: for every
`n ∈ 1..10` exactly one line begins with the header tag `# n.`, that line is
where `hdrPos` points, and the line immediately after each header exists, is
not a header, and is a nonempty snippet line (so every header is followed by
at least one non-header snippet line before the next header). -/
theorem spec_C1_ten_labeled_fragments :
    fileCharLines.countP isFragHeader = 10 ∧
    ∀ n ∈ ([1, 2, 3, 4, 5, 6, 7, 8, 9, 10] : List Nat),
      fileCharLines.countP (seqStarts (headerTag n)) = 1 ∧
      seqStarts (headerTag n) (lineAt (hdrPos n)) = true ∧
      hdrPos n + 1 < fileCharLines.length ∧
      isFragHeader (lineAt (hdrPos n + 1)) = false ∧
      lineAt (hdrPos n + 1) ≠ [] := by decide

/-- Witness for C1 at the concrete fragment number 3. -/
theorem spec_C1_witness :
    (3 ∈ ([1, 2, 3, 4, 5, 6, 7, 8, 9, 10] : List Nat)) ∧
    (fileCharLines.countP (seqStarts (headerTag 3)) = 1 ∧
     seqStarts (headerTag 3) (lineAt (hdrPos 3)) = true ∧
     hdrPos 3 + 1 < fileCharLines.length ∧
     isFragHeader (lineAt (hdrPos 3 + 1)) = false ∧
     lineAt (hdrPos 3 + 1) ≠ []) :=
  ⟨by decide, spec_C1_ten_labeled_fragments.2 3 (by decide)⟩

/-- C4: fragment headers occur in strictly increasing order of line number,
and no other cross-reference between fragments exists: no line of fragment `m`
mentions another fragment's label token `# n.` or contains another fragment's
defining identifier as a word token. -/
theorem spec_C4_sequential_order :
    ∀ m ∈ ([1, 2, 3, 4, 5, 6, 7, 8, 9, 10] : List Nat),
      ∀ n ∈ ([1, 2, 3, 4, 5, 6, 7, 8, 9, 10] : List Nat),
        (m < n → hdrPos m < hdrPos n) ∧
        (m ≠ n → ((fragSlice m).all fun l =>
            !seqIn (headerTag n) l &&
            !(tokensOf l).contains (definedName n)) = true) := by decide

/-- Witness for C4 at the concrete fragment pair (2, 5). -/
theorem spec_C4_witness :
    (2 ∈ ([1, 2, 3, 4, 5, 6, 7, 8, 9, 10] : List Nat)) ∧
    (5 ∈ ([1, 2, 3, 4, 5, 6, 7, 8, 9, 10] : List Nat)) ∧
    ((2 < 5 → hdrPos 2 < hdrPos 5) ∧
     (2 ≠ 5 → ((fragSlice 2).all fun l =>
         !seqIn (headerTag 5) l &&
         !(tokensOf l).contains (definedName 5)) = true)) :=
  ⟨by decide, by decide, spec_C4_sequential_order 2 (by decide) 5 (by decide)⟩

/-- C5: reading is verbatim and effect-free: reading the stored file yields
exactly the file's bytes, and for any store, a read returns the stored
content, leaves the store unchanged, and a second read returns the same
bytes as the first. -/
theorem spec_C5_read_verbatim :
    (read storedFile).1 = fileChars ∧
    ∀ s : FileStore,
      (read s).1 = s.content ∧ (read s).2 = s ∧
      (read (read s).2).1 = (read s).1 :=
  ⟨rfl, fun _ => ⟨rfl, rfl, rfl⟩⟩

/-- Witness for C5 at the concrete store holding the fixture file. -/
theorem spec_C5_witness :
    (read storedFile).1 = storedFile.content ∧
    (read storedFile).2 = storedFile ∧
    (read (read storedFile).2).1 = (read storedFile).1 :=
  spec_C5_read_verbatim.2 storedFile

/-- C6: the file is losslessly readable as a sequence of lines: splitting its
text at newline characters yields exactly the 45 transcribed lines, and
rejoining those lines with newlines reconstructs the original content — an
instance of the general round-trip identity `joinNl_splitNl`. -/
theorem spec_C6_line_roundtrip :
    splitNl fileChars = fileCharLines ∧
    joinNl (splitNl fileChars) = fileChars :=
  ⟨by decide, joinNl_splitNl fileChars⟩

/-- C7: fragment 8's snippet line assigns `broken_string` and opens a
double-quoted string that never closes: the line contains exactly one `"`
(an odd number), and after that quote no further `"` occurs before the end
of the line. -/
theorem spec_C7_unclosed_string :
    (tokensOf brokenStringLine).head? = some ("broken_string".data) ∧
    brokenStringLine.count '"' = 1 ∧
    brokenStringLine.count '"' % 2 = 1 ∧
    ((brokenStringLine.dropWhile fun c => c != '"').drop 1).count '"' = 0 := by
  decide

/-- C8: fragment 9 mixes whitespace styles: it has a line indented purely by
spaces and a line whose leading indentation contains a tab character. -/
theorem spec_C8_mixed_whitespace :
    ((fragSlice 9).any fun l =>
        !(leadWs l).isEmpty && (leadWs l).all (fun c => c == ' ')) = true ∧
    ((fragSlice 9).any fun l => (leadWs l).contains '\t') = true := by
  decide

/-- `true` iff `c` is a printable ASCII character (code 32..126). -/
def isPrintableAscii (c : Char) : Bool :=
  decide (32 ≤ c.toNat) && decide (c.toNat ≤ 126)

/-- C10: every character of the file is printable ASCII (code 32..126), a
tab, or a newline; in particular every code point is below 128, so the file
decodes totally under UTF-8 or any ASCII-compatible encoding, one byte per
character. -/
theorem spec_C10_ascii_only :
    (fileChars.all fun c => isPrintableAscii c || c == '\t' || c == '\n') = true ∧
    (fileChars.all fun c => decide (c.toNat < 128)) = true := by decide

/-- Modelled from the spec: the repository holds no parser; the spec (sections
1 and 6) says the file is fixture input for an external Python
error-detection tool.  This models that tool's lexical rule for string
literals (Python reference, "String literals"): a string opened by `'` or `"`
must be closed by the same quote on the same physical line, with `\x5c`
escaping the next character; only triple-quoted strings may span lines, and
the file contains no triple quotes and no backslashes.  The scanner returns
`true` iff the line's string literals are all closed; a `#` outside a string
starts a comment, ending the scan.  `st` is `some q` while inside a string
opened by quote `q`. -/
def scanLine : Option Char → List Char → Bool
  | none, [] => true
  | none, c :: cs =>
    if c == '#' then true
    else if c == '"' || c == Char.ofNat 39 then scanLine (some c) cs
    else scanLine none cs
  | some _, [] => false
  | some q, c :: cs =>
    if c == Char.ofNat 92 then
      match cs with
      | [] => false
      | _ :: cs2 => scanLine (some q) cs2
    else if c == q then scanLine none cs
    else scanLine (some q) cs

/-- Modelled from the spec: the external Python tool rejects a module with a
syntax error whenever some line fails the string-termination rule of
`scanLine` — lexical acceptance is necessary for a parse to succeed, so a
`true` here means every Python parser reports a syntax error for the file
rather than producing an executable module. -/
def pyLexRejects (lines : List (List Char)) : Bool :=
  lines.any fun l => !scanLine none l

/-- C2: parsing the whole file as one Python module fails: the lexical phase
already rejects it, because fragment 8's `broken_string` line leaves its
double-quoted string unclosed at end of line.  Hence every Python parser
returns a syntax error for the file and none of it is executable logic. -/
theorem spec_C2_whole_file_unparseable :
    pyLexRejects fileCharLines = true ∧
    scanLine none brokenStringLine = false := by decide

/-- Tokens of the Python surface syntax that fragment 7's snippet uses. -/
inductive PyTok where
  | name : List Char → PyTok
  | lpar : PyTok
  | rpar : PyTok
  | comma : PyTok
  | colon : PyTok
  | sym : Char → PyTok

/-- The maximal identifier run at the front of a line, with the rest. -/
def identRun : List Char → List Char × List Char
  | [] => ([], [])
  | c :: cs =>
    if isIdentChar c then
      match identRun cs with
      | (r, rest) => (c :: r, rest)
    else ([], c :: cs)

/-- Fuelled tokenizer for one physical line: skips spaces, stops at a `#`
comment, and emits name, parenthesis, comma and colon tokens. -/
def pyToksGo : Nat → List Char → List PyTok
  | 0, _ => []
  | _ + 1, [] => []
  | fuel + 1, c :: cs =>
    if c == ' ' then pyToksGo fuel cs
    else if c == '#' then []
    else if c == '(' then PyTok.lpar :: pyToksGo fuel cs
    else if c == ')' then PyTok.rpar :: pyToksGo fuel cs
    else if c == ',' then PyTok.comma :: pyToksGo fuel cs
    else if c == ':' then PyTok.colon :: pyToksGo fuel cs
    else if isIdentChar c then
      match identRun cs with
      | (r, rest) => PyTok.name (c :: r) :: pyToksGo fuel rest
    else PyTok.sym c :: pyToksGo fuel cs

/-- Token list of a physical line. -/
def pyToks (l : List Char) : List PyTok := pyToksGo (l.length + 1) l

/-- Modelled from the spec: the external Python tool's argument-list grammar
(Python reference, "Calls"): `argument_list [","]` — name arguments separated
by commas, with an optional trailing comma before the closing parenthesis.
Consumes the arguments and the closing `)` and returns the remaining tokens,
or `none` if the token sequence fits no argument list. -/
def parseArgs : List PyTok → Option (List PyTok)
  | PyTok.rpar :: rest => some rest
  | PyTok.name _ :: PyTok.rpar :: rest => some rest
  | PyTok.name _ :: PyTok.comma :: rest => parseArgs rest
  | _ => none

/-- Modelled from the spec: a call expression `NAME ( argument_list [","] )`
standing alone as the returned expression: all of the line's remaining tokens
must be consumed. -/
def parseCall : List PyTok → Bool
  | PyTok.name _ :: PyTok.lpar :: rest =>
    match parseArgs rest with
    | some [] => true
    | _ => false
  | _ => false

/-- Modelled from the spec: a `return` statement whose expression is a call,
as the sole statement of a function body line. -/
def parseReturnLine (l : List Char) : Bool :=
  match pyToks (l.dropWhile fun c => c == ' ' || c == '\t') with
  | PyTok.name r :: rest => r == "return".data && parseCall rest
  | _ => false

/-- Modelled from the spec: a function-definition header line
`def NAME ( ) :` with an empty parameter list. -/
def parseDefLine (l : List Char) : Bool :=
  match pyToks l with
  | [PyTok.name d, PyTok.name _, PyTok.lpar, PyTok.rpar, PyTok.colon] =>
    d == "def".data
  | _ => false

/-- Fragment 7's snippet: its fragment's lines without the header and without
blank lines (Python ignores blank lines). -/
def snippet7 : List (List Char) := ((fragSlice 7).drop 1).filter fun l => !l.isEmpty

/-- Modelled from the spec: fragment 7's snippet, parsed in isolation by the
grammar subset above: an unindented `def invalid_call():` header followed by
one body line indented by four spaces containing a `return` of a call. -/
def fragment7Valid : Bool :=
  match snippet7 with
  | [l1, l2] =>
    parseDefLine l1 && (leadWs l1).isEmpty &&
    parseReturnLine l2 && leadWs l2 == "    ".data
  | _ => false

/-- C9: fragment 7's snippet, taken in isolation, is syntactically valid
Python — the trailing comma inside the call parentheses is allowed by the
argument-list grammar — even though its header line carries a
`Syntax Error` label. -/
theorem spec_C9_fragment7_parses :
    fragment7Valid = true ∧
    seqIn ("Syntax Error".data) (lineAt (hdrPos 7)) = true := by decide

/-- The spec's nine classes of mistake, quoted verbatim from its section 1:
"bad indentation, missing colon, undefined name, type mismatch, malformed
literal, bad import, unclosed string, mixed whitespace, invalid assignment
target". -/
def specClasses : List (List Char) := [
  "bad indentation".data,
  "missing colon".data,
  "undefined name".data,
  "type mismatch".data,
  "malformed literal".data,
  "bad import".data,
  "unclosed string".data,
  "mixed whitespace".data,
  "invalid assignment target".data]

/-- The mistake a header names: the text after the `" - "` separator of the
header line `# n. <ErrorKind> - <mistake>`. -/
def afterDash : List Char → List Char
  | [] => []
  | ' ' :: '-' :: ' ' :: rest => rest
  | _ :: cs => afterDash cs

/-- The mistake phrase named by fragment `n`'s header. -/
def headerMistake (n : Nat) : List Char := afterDash (lineAt (hdrPos n))

/-- Modelled from the spec: the reading of each header's mistake phrase as one
of the spec's nine classes.  Each pair links a phrase that occurs after
`" - "` in some header to the spec class describing the same mistake: invalid
indentation is bad indentation, a missing colon is a missing colon, an
undefined variable is an undefined name, an unsupported operation flagged
`Type Error` is a type mismatch, an invalid dictionary (a dict literal
missing a comma) is a malformed literal, importing a non-existent module is a
bad import, an unclosed string is an unclosed string, mixed tabs and spaces
are mixed whitespace, and an invalid assignment (a literal as target) is an
invalid assignment target.  No spec class mentions function calls, so the
phrase `Invalid function call` of fragment 7's header reads as none of them. -/
def classReading : List (List Char × List Char) := [
  ("Invalid indentation".data, "bad indentation".data),
  ("Missing colon".data, "missing colon".data),
  ("Undefined variable".data, "undefined name".data),
  ("Unsupported operation".data, "type mismatch".data),
  ("Invalid dictionary".data, "malformed literal".data),
  ("Non-existent module".data, "bad import".data),
  ("Unclosed string".data, "unclosed string".data),
  ("Mixed tabs and spaces".data, "mixed whitespace".data),
  ("Invalid assignment".data, "invalid assignment target".data)]

/-- `true` iff the mistake phrase `m` names the spec class `c` under
`classReading`. -/
def denotes (m c : List Char) : Bool :=
  classReading.any fun p => p.1 == m && p.2 == c

/-- C3 counterexample: the claim fails at fragment 7.  Its header's mistake
phrase is `Invalid function call`, and that phrase names none of the spec's
nine classes. -/
theorem spec_C3_counterexample :
    headerMistake 7 = "Invalid function call".data ∧
    ¬ ∃ c ∈ specClasses, denotes (headerMistake 7) c = true := by decide

/-- C3 amended: the other nine fragments' headers each name a mistake from
the spec's nine-class list, and together they cover all nine classes;
fragment 7's header alone names a mistake (`Invalid function call`) outside
the list. -/
theorem spec_C3_nine_fragments_classified :
    (∀ n ∈ ([1, 2, 3, 4, 5, 6, 8, 9, 10] : List Nat),
      specClasses.any (denotes (headerMistake n)) = true) ∧
    (specClasses.all fun c =>
      ([1, 2, 3, 4, 5, 6, 8, 9, 10] : List Nat).any fun n =>
        denotes (headerMistake n) c) = true := by decide

/-- Witness for the amended C3 at the concrete fragment number 4. -/
theorem spec_C3_witness :
    (4 ∈ ([1, 2, 3, 4, 5, 6, 8, 9, 10] : List Nat)) ∧
    specClasses.any (denotes (headerMistake 4)) = true :=
  ⟨by decide, spec_C3_nine_fragments_classified.1 4 (by decide)⟩

end ErrFixture
